import Mathlib

set_option maxRecDepth 8000

namespace RicaSpec

/-- The apostrophe character, used to build the exact error-message strings
of the source (written as an escape so messages stay plain ASCII here). -/
def apos : String := "\u0027"

/-- The apostrophe as a character, for quote handling in the tag grammar. -/
def aposChar : Char := Char.ofNat 39

/-- JSON values as the json module produces them for the inputs this program
handles.  Numbers are modelled as integers: the payloads exercised in this
development carry only integer literals, and float handling is outside the
modelled fragment. -/
inductive Json where
  | null
  | bool (b : Bool)
  | num (n : Int)
  | str (s : String)
  | arr (elems : List Json)
  | obj (fields : List (String × Json))
  deriving Repr

/-- Models Python str.isspace and the regex class \s on the characters this
program feeds to str.strip and to re: ASCII whitespace. -/
def pyIsSpace (c : Char) : Bool :=
  c = ' ' || c = '\t' || c = '\n' || c = '\r' || c = '\x0b' || c = '\x0c'

/-- Models Python str.isalpha per character.  CPython classifies every
Unicode letter as alphabetic; ASCII letters are modelled exactly and, of the
non-ASCII Unicode letters, the ones exercised in this development are listed
(CPython returns True for all of them, e.g. for U+00E9). -/
def pyIsAlpha (c : Char) : Bool :=
  ('A' ≤ c && c ≤ 'Z') || ('a' ≤ c && c ≤ 'z') || c = 'é' || c = 'ß' || c = 'λ'

/-- Models Python str.isalnum per character: alphabetic or numeric.  ASCII
digits are modelled exactly; non-ASCII numeric characters are outside the
modelled fragment (CPython would also accept them). -/
def pyIsAlnum (c : Char) : Bool :=
  pyIsAlpha c || ('0' ≤ c && c ≤ '9')

/-- Models Python str.split(".") on characters: the dot-separated segments,
with empty segments preserved. -/
def splitDot : List Char → List (List Char)
  | [] => [[]]
  | c :: rest =>
    match splitDot rest with
    | [] => [[]]
    | seg :: segs => if c = '.' then [] :: seg :: segs else (c :: seg) :: segs

/-- Lean model of _package_checker (src/rica/core/application.py, lines
20-41): non-empty, at most 256 characters, the literal "rica" is always
accepted, otherwise at least two non-empty dot-separated segments whose
first character is alphabetic and whose characters are alphanumeric or
underscore (alphabetic and alphanumeric in the Python sense). -/
def _package_checker (package : String) : Bool :=
  if package = "" || package.length > 256 then false
  else if package = "rica" then true
  else if (splitDot package.toList).length < 2 then false
  else (splitDot package.toList).all fun seg =>
    match seg with
    | [] => false
    | c :: rest => pyIsAlpha c && (c :: rest).all fun d => pyIsAlnum d || d = '_'

/-- The per-segment pattern written in the spec: [A-Za-z][A-Za-z0-9_]* . -/
def specSegmentOk (seg : List Char) : Bool :=
  match seg with
  | [] => false
  | c :: rest =>
    (('A' ≤ c && c ≤ 'Z') || ('a' ≤ c && c ≤ 'z')) &&
      rest.all fun d =>
        ('A' ≤ d && d ≤ 'Z') || ('a' ≤ d && d ≤ 'z') || ('0' ≤ d && d ≤ '9') || d = '_'

/-- The acceptance shape claimed by the spec for C4, with the ASCII-only
segment pattern. -/
def specC4Shape (p : String) : Bool :=
  (!(p = "")) && p.length ≤ 256 &&
    (p = "rica" ||
      (2 ≤ (splitDot p.toList).length && (splitDot p.toList).all specSegmentOk))

mutual

/-- Models json.dumps(..., ensure_ascii=False) with the default separators
(", " and ": ") on the modelled Json fragment; string escaping is not
modelled because the strings serialized in this development need none. -/
def jsonDumps : Json → String
  | .null => "null"
  | .bool true => "true"
  | .bool false => "false"
  | .num n => toString n
  | .str s => "\"" ++ s ++ "\""
  | .arr es => "[" ++ jsonDumpsElems es ++ "]"
  | .obj fs => "\x7b" ++ jsonDumpsFields fs ++ "\x7d"

/-- Comma-joined serialization of array elements. -/
def jsonDumpsElems : List Json → String
  | [] => ""
  | [x] => jsonDumps x
  | x :: y :: rest => jsonDumps x ++ ", " ++ jsonDumpsElems (y :: rest)

/-- Comma-joined serialization of object members. -/
def jsonDumpsFields : List (String × Json) → String
  | [] => ""
  | [(k, v)] => "\"" ++ k ++ "\": " ++ jsonDumps v
  | (k, v) :: y :: rest =>
    "\"" ++ k ++ "\": " ++ jsonDumps v ++ ", " ++ jsonDumpsFields (y :: rest)

end

/-- Serialization of a foreground tool result as in _parse_and_execute
(src/rica/adapters/base.py lines 434-440): json.dumps for dict and list
payloads, str(payload) otherwise. -/
def serializePayload : Json → String
  | .obj fs => jsonDumps (.obj fs)
  | .arr es => jsonDumps (.arr es)
  | .str s => s
  | .num n => toString n
  | .bool true => "True"
  | .bool false => "False"
  | .null => "None"

/-- The exceptions of src/rica/exceptions.py that the modelled code raises,
each carrying the message the source builds for it (ExecutionTimedOut is
raised without arguments, so its message is empty). -/
inductive RicaError where
  | invalidRiCAString (msg : String)
  | packageExists (msg : String)
  | packageNotFound (msg : String)
  | routeNotFound (msg : String)
  | executionTimedOut
  | unexpectedExecution (msg : String)
  deriving DecidableEq, Repr

/-- Python type(e).__name__ for the modelled exceptions. -/
def RicaError.pyName : RicaError → String
  | .invalidRiCAString _ => "InvalidRiCAString"
  | .packageExists _ => "PackageExistError"
  | .packageNotFound _ => "PackageNotFoundError"
  | .routeNotFound _ => "RouteNotFoundError"
  | .executionTimedOut => "ExecutionTimedOut"
  | .unexpectedExecution _ => "UnexpectedExecutionError"

/-- Python str(e) for the modelled exceptions. -/
def RicaError.pyMsg : RicaError → String
  | .invalidRiCAString m => m
  | .packageExists m => m
  | .packageNotFound m => m
  | .routeNotFound m => m
  | .executionTimedOut => ""
  | .unexpectedExecution m => m

/-- The observable behaviour of one route handler on the payload a scan
passes it: it either returns a value after durationMs milliseconds or it
raises an exception (given by Python type name and message) after
durationMs milliseconds. -/
inductive HandlerBehavior where
  | completes (value : Json) (durationMs : Nat)
  | raises (excName : String) (excMsg : String) (durationMs : Nat)
  deriving Repr

/-- Models the Route class (src/rica/core/application.py lines 44-59).  The
function field of the source is modelled by its observable behaviour, and
callId models the uuid4 token drawn when this route is invoked. -/
structure Route where
  route : String
  background : Bool
  timeout : Int
  behavior : HandlerBehavior
  callId : String
  deriving Repr

/-- Models the CallBack dataclass (src/rica/core/application.py lines
62-82). -/
structure CallBack where
  package : String
  route : String
  call_id : String
  callback : Json
  status : String := "success"
  error : Option String := none
  duration_ms : Option Nat := none
  deriving Repr

/-- Models the RiCA application class: a validated package name plus its
registered routes. -/
structure RiCA where
  package : String
  description : String := ""
  routes : List Route := []
  deriving Repr

/-- Models RiCA.find_route (src/rica/core/application.py lines 105-110). -/
def RiCA.find_route (app : RiCA) (route_path : String) : Option Route :=
  app.routes.find? fun r => r.route = route_path

/-- Models ReasoningThreadBase.install (src/rica/adapters/base.py lines
73-100) for an already constructed RiCA instance.  The raising branch of
the source leaves the dict unmodified, so the model returns the input
registry unchanged together with the raised error. -/
def install (apps : List (String × RiCA)) (app : RiCA) :
    List (String × RiCA) × Option RicaError :=
  if (apps.lookup app.package).isSome then
    (apps, some (.packageExists
      ("Application with package " ++ apos ++ app.package ++ apos ++
        " is already installed.")))
  else (apps ++ [(app.package, app)], none)

/-- Models the outcome of _execute_tool_call: a CallBack for foreground
routes, the fresh call id for background routes. -/
inductive ExecResult where
  | callback (cb : CallBack)
  | callId (token : String)
  deriving Repr

/-- The CallBack built by the foreground success branch of
_execute_tool_call (src/rica/adapters/base.py lines 252-259), factored out
so theorems can name it. -/
def foregroundCallBack (r : Route) (v : Json) (d : Nat) : CallBack :=
  { package := (r.route.splitOn "/").headD ""
    route := r.route
    call_id := r.callId
    callback := v
    duration_ms := some d }

/-- Models _execute_tool_call (src/rica/adapters/base.py lines 200-268).
Wall-clock measurement is modelled by the handler duration.  For a
background route the caller receives the fresh call id at once (the
detached task and its deadline cancellation are not observable to the
caller).  For a foreground route, asyncio.wait_for raises TimeoutError
when the handler takes longer than the positive timeout, which the source
converts to ExecutionTimedOut; a handler exception of type TimeoutError is
caught by the same clause; any other handler exception is wrapped as
UnexpectedExecutionError carrying str of the original exception. -/
def _execute_tool_call (r : Route) : Except RicaError ExecResult :=
  if r.background then .ok (.callId r.callId)
  else
    match r.behavior with
    | .completes v d =>
      if 0 < r.timeout ∧ r.timeout < (d : Int) then .error .executionTimedOut
      else .ok (.callback (foregroundCallBack r v d))
    | .raises n m d =>
      if 0 < r.timeout ∧ r.timeout < (d : Int) then .error .executionTimedOut
      else if n = "TimeoutError" then .error .executionTimedOut
      else .error (.unexpectedExecution m)

/-- Python dict assignment d[k] = v on an association list that keeps keys
unique: replace in place or append at the end. -/
def dictSet {β : Type} : List (String × β) → String → β → List (String × β)
  | [], k, v => [(k, v)]
  | (k2, v2) :: rest, k, v =>
    if k2 = k then (k, v) :: rest else (k2, v2) :: dictSet rest k v

/-- Python dict.pop(k, None) on an association list with unique keys. -/
def dictPop {β : Type} : List (String × β) → String → List (String × β)
  | [], _ => []
  | (k2, v2) :: rest, k =>
    if k2 = k then rest else (k2, v2) :: dictPop rest k

/-- The two dicts owned by a Whiteboard instance
(src/rica/core/whiteboard.py lines 12-14). -/
structure WbState where
  content : List (String × String) := []
  descriptions : List (String × String) := []
  deriving Repr

/-- The fields Whiteboard.handle reads from its input dict; a missing key
is None. -/
structure WbInput where
  action : Option String := none
  whiteboard_id : Option String := none
  content : Option String := none
  description : Option String := none
  deriving Repr

/-- Models Whiteboard.handle (src/rica/core/whiteboard.py lines 16-69):
returns the updated state and the result payload. -/
def Whiteboard.handle (s : WbState) (input : WbInput) : WbState × Json :=
  let wbId := input.whiteboard_id.getD "default"
  let content := input.content.getD ""
  let action := input.action.getD ""
  if action = "" then
    (s, Json.obj [("error", Json.str ("Missing " ++ apos ++ "action" ++ apos ++ " parameter"))])
  else if action = "read" then
    (s, Json.obj
      [("content", Json.str ((s.content.lookup wbId).getD "")),
       ("description", Json.str ((s.descriptions.lookup wbId).getD ""))])
  else if action = "write" then
    ({ content := dictSet s.content wbId content
       descriptions :=
         match input.description with
         | some d => dictSet s.descriptions wbId d
         | none => s.descriptions },
     Json.obj [("status", Json.str "success"),
               ("message", Json.str ("Whiteboard " ++ apos ++ wbId ++ apos ++ " updated"))])
  else if action = "append" then
    let current := (s.content.lookup wbId).getD ""
    ({ content := dictSet s.content wbId (current ++ "\n" ++ content)
       descriptions :=
         match input.description with
         | some d => dictSet s.descriptions wbId d
         | none => s.descriptions },
     Json.obj [("status", Json.str "success"),
               ("message", Json.str ("Appended to whiteboard " ++ apos ++ wbId ++ apos))])
  else if action = "clear" then
    ({ content := dictPop s.content wbId
       descriptions := dictPop s.descriptions wbId },
     Json.obj [("status", Json.str "success"),
               ("message", Json.str ("Whiteboard " ++ apos ++ wbId ++ apos ++ " cleared"))])
  else if action = "list" then
    (s, Json.obj [("whiteboards", Json.arr (s.content.map fun kv =>
      Json.obj [("id", Json.str kv.1),
                ("description", Json.str ((s.descriptions.lookup kv.1).getD ""))]))])
  else
    (s, Json.obj [("error", Json.str ("Unknown action: " ++ action))])

/-- The fields ThreadManager.spawn reads from its input dict. -/
structure SpawnInput where
  task : Option String := none
  model : Option String := none
  deriving Repr

/-- Models ThreadManager.spawn (src/rica/core/thread_manager.py lines
28-67).  The registry maps thread ids to the spawned thread, modelled by an
abstract token.  External effects are modelled by parameters: parentSupports
models hasattr(parent_thread, "create_sub_thread"); factory models the
outcome of parent_thread.create_sub_thread (the error side carries str of
the exception); freshId is the uuid4 token; startupError models a failure
inside the startup calls that follow registration.  A factory failure happens before
register_thread, a startup failure after it, matching where
register_thread sits inside the try block of the source. -/
def ThreadManager.spawn (parentSupports : Bool) (factory : Except String String)
    (freshId : String) (startupError : Option String)
    (s : List (String × String)) (input : SpawnInput) :
    List (String × String) × Json :=
  if input.task.getD "" = "" then
    (s, Json.obj [("error", Json.str ("Missing " ++ apos ++ "task" ++ apos ++ " parameter"))])
  else if !parentSupports then
    (s, Json.obj [("error", Json.str "Parent thread does not support spawning sub-threads")])
  else
    match factory with
    | .error e => (s, Json.obj [("error", Json.str ("Failed to spawn thread: " ++ e))])
    | .ok sub =>
      let s2 := s ++ [(freshId, sub)]
      match startupError with
      | some e => (s2, Json.obj [("error", Json.str ("Failed to spawn thread: " ++ e))])
      | none =>
        (s2, Json.obj [("status", Json.str "success"),
                       ("thread_id", Json.str freshId),
                       ("message", Json.str "Thread spawned")])

/-- Models ThreadManager.kill (src/rica/core/thread_manager.py lines
69-80); destroy on the found thread is an external effect modelled as
succeeding. -/
def ThreadManager.kill (s : List (String × String)) (input : Option String) :
    List (String × String) × Json :=
  let tid := input.getD ""
  if tid = "" then
    (s, Json.obj [("error", Json.str ("Missing " ++ apos ++ "thread_id" ++ apos))])
  else
    match s.lookup tid with
    | none =>
      (s, Json.obj [("error", Json.str ("Thread " ++ apos ++ tid ++ apos ++ " not found"))])
    | some _ =>
      (dictPop s tid,
       Json.obj [("status", Json.str "success"),
                 ("message", Json.str ("Thread " ++ apos ++ tid ++ apos ++ " killed"))])

/-- Python str.lstrip on characters. -/
def dropSpaces (cs : List Char) : List Char := cs.dropWhile pyIsSpace

/-- Python str.strip on characters. -/
def stripChars (cs : List Char) : List Char :=
  ((cs.dropWhile pyIsSpace).reverse.dropWhile pyIsSpace).reverse

/-- Characters accepted in an element or attribute name by the modelled XML
fragment. -/
def xmlNameChar (c : Char) : Bool :=
  ('A' ≤ c && c ≤ 'Z') || ('a' ≤ c && c ≤ 'z') || ('0' ≤ c && c ≤ '9') ||
    c = '_' || c = '-' || c = '.'

/-- The quote characters of the attribute grammar and of the fallback regex
class: double quote or apostrophe. -/
def isQuote (c : Char) : Bool := c = '"' || c = aposChar

/-- Whether the second list starts with the first one. -/
def listStartsWith : List Char → List Char → Bool
  | [], _ => true
  | _ :: _, [] => false
  | p :: ps, c :: cs => p = c && listStartsWith ps cs

/-- Case-insensitive variant of listStartsWith, for the re.IGNORECASE
scans. -/
def listStartsWithCI : List Char → List Char → Bool
  | [], _ => true
  | _ :: _, [] => false
  | p :: ps, c :: cs => p.toLower = c.toLower && listStartsWithCI ps cs

/-- Index of the first occurrence of pat as a sublist. -/
def findSub (pat : List Char) : List Char → Option Nat
  | [] => if pat = [] then some 0 else none
  | c :: rest =>
    if listStartsWith pat (c :: rest) then some 0
    else
      match findSub pat rest with
      | some n => some (n + 1)
      | none => none

/-- Case-insensitive variant of findSub. -/
def findSubCI (pat : List Char) : List Char → Option Nat
  | [] => if pat = [] then some 0 else none
  | c :: rest =>
    if listStartsWithCI pat (c :: rest) then some 0
    else
      match findSubCI pat rest with
      | some n => some (n + 1)
      | none => none

/-- One attribute of the modelled XML fragment: a name, an equals sign with
optional surrounding whitespace, and a value in single or double quotes
that contains no quote, angle bracket or ampersand. -/
def parseOneAttr (cs : List Char) : Option ((String × String) × List Char) :=
  let name := cs.takeWhile xmlNameChar
  if name = [] then none
  else
    match dropSpaces (cs.drop name.length) with
    | '=' :: r2 =>
      match dropSpaces r2 with
      | q :: r3 =>
        if isQuote q then
          let v := r3.takeWhile fun d => !(d = q) && !(d = '<') && !(d = '&')
          match r3.drop v.length with
          | q2 :: r4 => if q2 = q then some ((String.mk name, String.mk v), r4) else none
          | [] => none
        else none
      | [] => none
    | _ => none

/-- The attribute list of an open tag: whitespace-separated attributes up to
the closing angle bracket, duplicate attribute names rejected as
ElementTree does.  Returns the attributes, whether the element was
self-closing, and the rest of the input. -/
def parseAttrs : Nat → List Char → Option (List (String × String) × Bool × List Char)
  | 0, _ => none
  | _ + 1, [] => none
  | fuel + 1, c :: rest =>
    if c = '>' then some ([], false, rest)
    else if c = '/' then
      match rest with
      | '>' :: r2 => some ([], true, r2)
      | _ => none
    else if pyIsSpace c then
      match dropSpaces rest with
      | [] => none
      | '>' :: r2 => some ([], false, r2)
      | '/' :: r2 =>
        match r2 with
        | '>' :: r3 => some ([], true, r3)
        | _ => none
      | d :: r2 =>
        match parseOneAttr (d :: r2) with
        | some (kv, r3) =>
          match parseAttrs fuel r3 with
          | some (attribs, sc, r4) =>
            if (attribs.lookup kv.1).isSome then none
            else some (kv :: attribs, sc, r4)
          | none => none
        | none => none
    else none

/-- The result of the strict parse: the attribute dict and the text content
(root.text or "" as the source reads it). -/
structure XmlElem where
  attrib : List (String × String)
  text : String
  deriving Repr

/-- Models xml.etree.ElementTree.fromstring on the fragment of XML this
program feeds it: one element with attributes and text content, no
children, no comments, no entity references, nothing after the closing
tag.  Any input outside this fragment is modelled as a ParseError, which in
the source selects the fallback regex extraction. -/
def xmlFromstring (input : List Char) : Option XmlElem :=
  match dropSpaces input with
  | '<' :: rest =>
    let name := rest.takeWhile xmlNameChar
    if name = [] then none
    else
      let afterName := rest.drop name.length
      match parseAttrs (afterName.length + 1) afterName with
      | none => none
      | some (attribs, true, rest2) =>
        if dropSpaces rest2 = [] then some { attrib := attribs, text := "" } else none
      | some (attribs, false, rest2) =>
        let txt := rest2.takeWhile fun c => !(c = '<') && !(c = '&')
        match rest2.drop txt.length with
        | '<' :: '/' :: r4 =>
          if r4.take name.length = name then
            match dropSpaces (r4.drop name.length) with
            | '>' :: r6 =>
              if dropSpaces r6 = [] then some { attrib := attribs, text := String.mk txt }
              else none
            | _ => none
          else none
        | _ => none
  | _ => none

/-- One attempt of the fallback attribute regex at the head of cs: the
literal pattern (attribute name and equals sign), a quote character, one or
more characters from the complement of the quote class, and a closing
quote character of either kind; returns the captured group. -/
def attrAttempt (pat : List Char) (cs : List Char) : Option String :=
  if listStartsWith pat cs then
    match cs.drop pat.length with
    | q :: r2 =>
      if isQuote q then
        let v := r2.takeWhile fun d => !(isQuote d)
        match r2.drop v.length with
        | _ :: _ => if v = [] then none else some (String.mk v)
        | [] => none
      else none
    | [] => none
  else none

/-- Models re.search for the fallback attribute patterns of parse_rica_tag
(src/rica/utils/parser.py lines 33-34): the leftmost successful attempt. -/
def attrSearch (pat : List Char) : List Char → Option String
  | [] => none
  | c :: rest =>
    match attrAttempt pat (c :: rest) with
    | some v => some v
    | none => attrSearch pat rest

/-- Models the fallback content regex of parse_rica_tag
(src/rica/utils/parser.py lines 39-40): the text between the first
greater-than sign and the first following closing rica marker, surrounding
whitespace stripped; empty when there is no match. -/
def fallbackContent (cs : List Char) : String :=
  match findSub ['>'] cs with
  | none => ""
  | some i =>
    let after := cs.drop (i + 1)
    match findSub "</rica>".toList after with
    | none => ""
    | some j => String.mk (stripChars (after.take j))

/-- A JSON string literal without escape sequences (escapes are outside the
modelled fragment of json.loads). -/
def jsonString (cs : List Char) : Option (String × List Char) :=
  match cs with
  | '"' :: rest =>
    let v := rest.takeWhile fun d => !(d = '"') && !(d = '\\')
    match rest.drop v.length with
    | '"' :: r2 => some (String.mk v, r2)
    | _ => none
  | _ => none

/-- Decimal digits to a natural number. -/
def natOfDigits (ds : List Char) : Nat :=
  ds.foldl (fun acc d => acc * 10 + (d.toNat - 48)) 0

/-- A JSON integer literal; a fractional or exponent part is outside the
modelled fragment. -/
def jsonNumber (cs : List Char) : Option (Json × List Char) :=
  match cs with
  | '-' :: rest =>
    let ds := rest.takeWhile Char.isDigit
    match rest.drop ds.length with
    | '.' :: _ => none
    | 'e' :: _ => none
    | 'E' :: _ => none
    | tail => if ds = [] then none else some (Json.num (-(natOfDigits ds : Int)), tail)
  | _ =>
    let ds := cs.takeWhile Char.isDigit
    match cs.drop ds.length with
    | '.' :: _ => none
    | 'e' :: _ => none
    | 'E' :: _ => none
    | tail => if ds = [] then none else some (Json.num (natOfDigits ds : Int), tail)

mutual

/-- Models json.loads value parsing on the modelled fragment: objects,
arrays, strings without escapes, integer numbers, true, false, null. -/
def jsonValue : Nat → List Char → Option (Json × List Char)
  | 0, _ => none
  | fuel + 1, input =>
    match dropSpaces input with
    | [] => none
    | '{' :: rest =>
      (match dropSpaces rest with
      | '}' :: r2 => some (Json.obj [], r2)
      | r2 =>
        match jsonMembers fuel r2 with
        | some (fs, r3) => some (Json.obj fs, r3)
        | none => none)
    | '[' :: rest =>
      (match dropSpaces rest with
      | ']' :: r2 => some (Json.arr [], r2)
      | r2 =>
        match jsonElems fuel r2 with
        | some (es, r3) => some (Json.arr es, r3)
        | none => none)
    | '"' :: rest =>
      (match jsonString ('"' :: rest) with
      | some (s, r2) => some (Json.str s, r2)
      | none => none)
    | cs =>
      if listStartsWith "true".toList cs then some (Json.bool true, cs.drop 4)
      else if listStartsWith "false".toList cs then some (Json.bool false, cs.drop 5)
      else if listStartsWith "null".toList cs then some (Json.null, cs.drop 4)
      else jsonNumber cs

/-- The members of a non-empty JSON object, up to and including the closing
brace. -/
def jsonMembers : Nat → List Char → Option (List (String × Json) × List Char)
  | 0, _ => none
  | fuel + 1, cs =>
    match jsonString (dropSpaces cs) with
    | none => none
    | some (k, r1) =>
      match dropSpaces r1 with
      | ':' :: r2 =>
        (match jsonValue fuel r2 with
        | none => none
        | some (v, r3) =>
          match dropSpaces r3 with
          | ',' :: r4 =>
            (match jsonMembers fuel r4 with
            | some (fs, r5) => some ((k, v) :: fs, r5)
            | none => none)
          | '}' :: r4 => some ([(k, v)], r4)
          | _ => none)
      | _ => none

/-- The elements of a non-empty JSON array, up to and including the closing
bracket. -/
def jsonElems : Nat → List Char → Option (List Json × List Char)
  | 0, _ => none
  | fuel + 1, cs =>
    match jsonValue fuel cs with
    | none => none
    | some (v, r1) =>
      match dropSpaces r1 with
      | ',' :: r2 =>
        (match jsonElems fuel r2 with
        | some (es, r3) => some (v :: es, r3)
        | none => none)
      | ']' :: r2 => some ([v], r2)
      | _ => none

end

/-- Models json.loads on a whole string: the parsed value with only
whitespace left over. -/
def jsonLoads (s : String) : Option Json :=
  match jsonValue (s.length + 1) s.toList with
  | some (v, rest) => if dropSpaces rest = [] then some v else none
  | none => none

/-- The second stage of parse_rica_tag shared by the strict and the
fallback path (src/rica/utils/parser.py lines 50-59): read the package and
route attributes, reject when either is missing or empty, then decode the
body as JSON (an empty dict when the body is blank).  A JSON decode failure
reaches the outer handler of the source, which wraps it as
InvalidRiCAString. -/
def finishRoot (attribs : List (String × String)) (text : String) :
    Except RicaError (String × String × Json) :=
  let package_name := (attribs.lookup "package").getD ""
  let route_name := (attribs.lookup "route").getD ""
  if package_name = "" || route_name = "" then
    .error (.invalidRiCAString "Missing package or route attribute")
  else if String.mk (stripChars text.toList) = "" then
    .ok (package_name, route_name, Json.obj [])
  else
    match jsonLoads text with
    | some j => .ok (package_name, route_name, j)
    | none => .error (.invalidRiCAString "Error parsing RiCA tag")

/-- Models parse_rica_tag (src/rica/utils/parser.py lines 12-64): strict
ElementTree parsing first; on a ParseError, fallback regex extraction of
the package and route attributes plus the body; InvalidRiCAString when the
fallback cannot extract both attributes, when an attribute is missing or
empty, or when the body fails to decode as JSON. -/
def parse_rica_tag (cs : List Char) : Except RicaError (String × String × Json) :=
  match xmlFromstring cs with
  | some root => finishRoot root.attrib root.text
  | none =>
    match attrSearch "package=".toList cs, attrSearch "route=".toList cs with
    | some p, some r => finishRoot [("package", p), ("route", r)] (fallbackContent cs)
    | _, _ => .error (.invalidRiCAString "Invalid XML format")

/-- Whether a route attribute can be extracted from the text at all: by the
strict parse when it succeeds, by the fallback regex when it does not. -/
def routeExtractable (cs : List Char) : Bool :=
  match xmlFromstring cs with
  | some root => !((root.attrib.lookup "route").getD "" = "")
  | none => (attrSearch "route=".toList cs).isSome

/-- The body of _parse_and_execute (src/rica/adapters/base.py lines
413-444) before its exception handler: parse the tag, resolve the package
and the route, special-case rica /response (which emits the payload to the
response callbacks and appends nothing), otherwise execute the route and
serialize the result (the call id acknowledgement for a background
route). -/
def _parse_and_execute_core (apps : List (String × RiCA)) (tag : List Char) :
    Except RicaError String :=
  match parse_rica_tag tag with
  | .error e => .error e
  | .ok (package_name, route_name, _content) =>
    match apps.lookup package_name with
    | none =>
      .error (.packageNotFound ("Package " ++ apos ++ package_name ++ apos ++ " not found"))
    | some app_instance =>
      match app_instance.find_route route_name with
      | none =>
        .error (.routeNotFound ("Route " ++ apos ++ route_name ++ apos ++ " not found"))
      | some application =>
        if package_name = "rica" && route_name = "/response" then .ok ""
        else
          match _execute_tool_call application with
          | .error e => .error e
          | .ok (.callback cb) => .ok (serializePayload cb.callback)
          | .ok (.callId cid) => .ok (jsonDumps (Json.obj [("call_id", Json.str cid)]))

/-- Models _parse_and_execute including its top-level exception handler
(lines 446-448): any failure becomes the inline [tool-error] text
fragment and nothing propagates to the caller. -/
def _parse_and_execute (apps : List (String × RiCA)) (tag : List Char) : String :=
  match _parse_and_execute_core apps tag with
  | .ok s => s
  | .error e => "[tool-error]" ++ e.pyName ++ ": " ++ e.pyMsg

/-- One attempt of the tag regex at the head of cs (the pattern of
_detect_and_execute_tool_tail, with re.IGNORECASE and re.DOTALL): the match
length when the regex matches here.  The opening marker needs at least one
whitespace character after the name, the opening tag ends at the first
following greater-than sign (the character class excludes it, so the
engine has no other alternative), and the lazy body ends at the first
closing marker. -/
def matchTagLen (cs : List Char) : Option Nat :=
  if listStartsWithCI "<rica".toList cs then
    match cs.drop 5 with
    | c :: rest =>
      if pyIsSpace c then
        let inner := rest.takeWhile fun d => !(d = '>')
        match rest.drop inner.length with
        | '>' :: body =>
          match findSubCI "</rica>".toList body with
          | some j => some (5 + 1 + inner.length + 1 + j + 7)
          | none => none
        | _ => none
      else none
    | [] => none
  else none

/-- Models re.finditer of the tag pattern over the buffer: leftmost
matches, scanning resumes right after each match; spans are half-open
(start, stop) offsets. -/
def findMatchesAux : Nat → List Char → Nat → List (Nat × Nat)
  | 0, _, _ => []
  | _ + 1, [], _ => []
  | fuel + 1, c :: rest, pos =>
    match matchTagLen (c :: rest) with
    | some len =>
      (pos, pos + len) :: findMatchesAux fuel ((c :: rest).drop len) (pos + len)
    | none => findMatchesAux fuel rest (pos + 1)

/-- All matches of the tag pattern in the buffer. -/
def findMatches (cs : List Char) : List (Nat × Nat) :=
  findMatchesAux (cs.length + 1) cs 0

/-- The matched text of a finditer span in ctx. -/
def tagTextAt (ctx : List Char) (m : Nat × Nat) : List Char :=
  (ctx.drop m.1).take (m.2 - m.1)

/-- The text after a match, stripped, as _detect_and_execute_tool_tail
computes following_text (src/rica/adapters/base.py lines 386-388). -/
def tailAfter (ctx : List Char) (m : Nat × Nat) : List Char :=
  stripChars (ctx.drop m.2)

/-- The candidate filter (lines 389-392): a match counts as unprocessed
when the following stripped text is empty or starts with neither an
opening brace nor an opening bracket. -/
def isNewCandidate (ctx : List Char) (m : Nat × Nat) : Bool :=
  match tailAfter ctx m with
  | [] => true
  | c :: _ => !(c = '{') && !(c = '[')

/-- The candidate tags of one scan, in left-to-right buffer order. -/
def candidateMatches (ctx : List Char) : List (Nat × Nat) :=
  (findMatches ctx).filter (isNewCandidate ctx)

/-- The per-candidate result strings of one scan, in the left-to-right
order in which finditer produced the candidate tags (the order the tasks
are handed to asyncio.gather). -/
def scanResults (apps : List (String × RiCA)) (ctx : List Char) : List String :=
  (candidateMatches ctx).map fun m => _parse_and_execute apps (tagTextAt ctx m)

/-- Models asyncio.gather over the dispatched candidate tasks: the tasks
finish in the completion order given by the schedule (a permutation of the
task indices), each finishing task records its index with its result, and
gather hands the results back in task submission order by index. -/
def gatherBySchedule (tasks : List String) (order : List Nat) : List String :=
  (List.range tasks.length).map fun i =>
    (((order.map fun j => (j, tasks.getD j "")).lookup i).getD "")

/-- Concatenation of a list of strings. -/
def joinAll : List String → String
  | [] => ""
  | s :: rest => s ++ joinAll rest

/-- Models _detect_and_execute_tool_tail (src/rica/adapters/base.py lines
276-411) for one scan over ctx, with the completion order of the
concurrently dispatched candidates given by order: returns whether
anything was dispatched, the combined appended text, and the new context
buffer.  Results are appended to the buffer in the order gather returns
them, skipping empty ones. -/
def _detect_and_execute_tool_tail (apps : List (String × RiCA)) (ctx : List Char)
    (order : List Nat) : Bool × Option String × List Char :=
  if findMatches ctx = [] then (false, none, ctx)
  else if candidateMatches ctx = [] then (false, none, ctx)
  else
    let results := gatherBySchedule (scanResults apps ctx) order
    let merged := results.foldl
      (fun p r => if r = "" then p else (p.1 ++ r.toList, p.2 ++ r)) (ctx, "")
    (true, some merged.2, merged.1)

/-- A foreground route whose handler returns the scalar text hello after
one millisecond. -/
def helloRoute : Route :=
  { route := "/r", background := false, timeout := -1,
    behavior := .completes (Json.str "hello") 1, callId := "cid-1" }

/-- A foreground route whose handler returns the scalar text world after
one millisecond. -/
def worldRoute : Route :=
  { route := "/s", background := false, timeout := -1,
    behavior := .completes (Json.str "world") 1, callId := "cid-2" }

/-- A registry holding the single application p.q with the two foreground
routes above. -/
def demoApps : List (String × RiCA) :=
  [("p.q", { package := "p.q", routes := [helloRoute, worldRoute] })]

/-- A buffer holding exactly one well-formed tag for p.q /r. -/
def tagBuf : List Char := "<rica package=\"p.q\" route=\"/r\"></rica>".toList

/-- The same buffer after the scalar result of a first scan was merged. -/
def tagBufMerged : List Char := tagBuf ++ "hello".toList

/-- A buffer whose tag is followed by a merged JSON object result. -/
def tagBufJson : List Char := tagBuf ++ "\x7b\"a\": 1\x7d".toList

/-- A buffer holding two well-formed tags with no intervening results. -/
def twoTagBuf : List Char :=
  ("<rica package=\"p.q\" route=\"/r\"></rica>" ++
    "<rica package=\"p.q\" route=\"/s\"></rica>").toList

/-- A buffer whose first tag names an uninstalled package and whose second
tag is well-formed for p.q /s. -/
def mixedTagBuf : List Char :=
  ("<rica package=\"no.pkg\" route=\"/r\"></rica>" ++
    "<rica package=\"p.q\" route=\"/s\"></rica>").toList

/-- The concrete tag of the C6 decode example. -/
def exampleTag : List Char :=
  "<rica package=\"p.q\" route=\"/r\">\x7b\"x\":1\x7d</rica>".toList

/-- A foreground route that completes within its timeout (50ms of work
against a 100ms limit). -/
def fastRoute : Route :=
  { route := "/fast", background := false, timeout := 100,
    behavior := .completes (Json.str "ok") 50, callId := "cid-3" }

/-- A foreground route whose handler overruns its 100ms timeout. -/
def slowRoute : Route :=
  { route := "/slow", background := false, timeout := 100,
    behavior := .completes (Json.str "late") 500, callId := "cid-4" }

/-- A foreground route whose handler raises ValueError("boom") within its
timeout. -/
def failingRoute : Route :=
  { route := "/fail", background := false, timeout := 100,
    behavior := .raises "ValueError" "boom" 10, callId := "cid-5" }

/-- A RiCA instance whose package name collides with the one installed in
demoApps. -/
def dupApp : RiCA := { package := "p.q" }

/-- The prior write call of the spec example for C8, which carries no
whiteboard_id. -/
def writeA : WbInput := { action := some "write", content := some "A" }

/-- The append call of the C8 example, addressed to whiteboard w. -/
def appendBtoW : WbInput :=
  { action := some "append", whiteboard_id := some "w", content := some "B" }

/-- A read of whiteboard w. -/
def readW : WbInput := { action := some "read", whiteboard_id := some "w" }

/-- A write call addressed to a given whiteboard id. -/
def writeInput (wid c : String) : WbInput :=
  { action := some "write", whiteboard_id := some wid, content := some c }

/-- An append call addressed to a given whiteboard id. -/
def appendInput (wid c : String) : WbInput :=
  { action := some "append", whiteboard_id := some wid, content := some c }

/-- A read call addressed to a given whiteboard id. -/
def readInput (wid : String) : WbInput :=
  { action := some "read", whiteboard_id := some wid }

/-- The error raised for the uninstalled package no.pkg of mixedTagBuf. -/
def eCex : RicaError :=
  .packageNotFound ("Package " ++ apos ++ "no.pkg" ++ apos ++ " not found")

section Lemmas

theorem strToList_append (a b : String) : (a ++ b).toList = a.toList ++ b.toList := rfl

theorem str_empty_append (s : String) : "" ++ s = s := by
  cases s; rfl

theorem str_append_empty (s : String) : s ++ "" = s := by
  cases s with
  | mk data => show String.mk (data ++ []) = String.mk data; rw [List.append_nil]

theorem str_append_assoc (a b c : String) : a ++ b ++ c = a ++ (b ++ c) := by
  cases a; cases b; cases c
  show String.mk (_ ++ _ ++ _) = String.mk (_ ++ (_ ++ _))
  rw [List.append_assoc]

theorem lookup_dictSet_self {β : Type} (m : List (String × β)) (k : String) (v : β) :
    (dictSet m k v).lookup k = some v := by
  induction m with
  | nil => simp [dictSet, List.lookup]
  | cons kv rest ih =>
    obtain ⟨k2, v2⟩ := kv
    by_cases h : k2 = k
    · subst h; simp [dictSet, List.lookup]
    · simp only [dictSet, if_neg h, List.lookup]
      have : (k == k2) = false := by
        simp [beq_iff_eq]; intro he; exact h he.symm
      rw [this]
      exact ih

theorem lookup_map_pair (f : Nat → String) :
    ∀ (l : List Nat) (i : Nat), i ∈ l →
      ((l.map fun j => (j, f j)).lookup i) = some (f i) := by
  intro l
  induction l with
  | nil => intro i h; cases h
  | cons j t ih =>
    intro i h
    by_cases hij : i = j
    · subst hij; simp [List.lookup]
    · have hmem : i ∈ t := by
        cases h with
        | head => exact absurd rfl hij
        | tail _ hm => exact hm
      simp only [List.map_cons, List.lookup]
      have : (i == j) = false := by simp [beq_iff_eq, hij]
      rw [this]
      exact ih i hmem

theorem map_getD_range (tasks : List String) :
    (List.range tasks.length).map (fun i => tasks.getD i "") = tasks := by
  induction tasks with
  | nil => simp
  | cons t ts ih =>
    rw [List.length_cons, List.range_succ_eq_map, List.map_cons, List.map_map]
    have : ((fun i => List.getD (t :: ts) i "") ∘ Nat.succ) = fun i => ts.getD i "" := by
      funext i; simp [List.getD_cons_succ]
    rw [this, ih]
    simp [List.getD_cons_zero]

/-- asyncio.gather returns the task results in submission order whenever the
completion schedule is a permutation of the task indices. -/
theorem gatherBySchedule_perm (tasks : List String) (order : List Nat)
    (h : order.Perm (List.range tasks.length)) :
    gatherBySchedule tasks order = tasks := by
  unfold gatherBySchedule
  have hcong : ∀ i ∈ List.range tasks.length,
      ((((order.map fun j => (j, tasks.getD j "")).lookup i).getD "")) = tasks.getD i "" := by
    intro i hi
    have hmem : i ∈ order := h.mem_iff.2 hi
    rw [lookup_map_pair (fun j => tasks.getD j "") order i hmem]
    rfl
  rw [List.map_congr_left hcong]
  exact map_getD_range tasks

theorem foldl_merge (results : List String) :
    ∀ (ctx : List Char) (acc : String),
      results.foldl (fun p r => if r = "" then p else (p.1 ++ r.toList, p.2 ++ r)) (ctx, acc)
        = (ctx ++ (joinAll results).toList, acc ++ joinAll results) := by
  induction results with
  | nil => intro ctx acc; simp [joinAll, str_append_empty]
  | cons r rs ih =>
    intro ctx acc
    by_cases hr : r = ""
    · subst hr
      simp only [List.foldl_cons, if_pos rfl, joinAll, ih, str_empty_append, if_true,
        eq_self_iff_true]
    · simp only [List.foldl_cons, if_neg hr, joinAll, ih, strToList_append,
        List.append_assoc, str_append_assoc]

theorem getD_map_lt (f : (Nat × Nat) → String) :
    ∀ (l : List (Nat × Nat)) (i : Nat), i < l.length →
      (l.map f).getD i "" = f (l.getD i (0, 0)) := by
  intro l
  induction l with
  | nil => intro i h; cases h
  | cons x xs ih =>
    intro i h
    cases i with
    | zero => simp [List.getD_cons_zero]
    | succ n =>
      simp only [List.map_cons, List.getD_cons_succ]
      exact ih n (Nat.lt_of_succ_lt_succ h)

theorem scanResults_length (apps : List (String × RiCA)) (ctx : List Char) :
    (scanResults apps ctx).length = (candidateMatches ctx).length := by
  simp [scanResults]

theorem gather_scan_eq (apps : List (String × RiCA)) (ctx : List Char) (order : List Nat)
    (hperm : order.Perm (List.range (candidateMatches ctx).length)) :
    gatherBySchedule (scanResults apps ctx) order = scanResults apps ctx := by
  apply gatherBySchedule_perm
  rw [scanResults_length]
  exact hperm

theorem detect_merge_eq (apps : List (String × RiCA)) (ctx : List Char) (order : List Nat)
    (hperm : order.Perm (List.range (candidateMatches ctx).length))
    (hne : candidateMatches ctx ≠ []) :
    (_detect_and_execute_tool_tail apps ctx order).2.2
      = ctx ++ (joinAll (scanResults apps ctx)).toList := by
  have hfm : ¬(findMatches ctx = []) := by
    intro h0
    apply hne
    rw [candidateMatches, h0]
    rfl
  unfold _detect_and_execute_tool_tail
  rw [if_neg hfm, if_neg hne, gather_scan_eq apps ctx order hperm]
  simp only [foldl_merge]

end Lemmas

/-- C4 (amended): every string accepted by _package_checker is non-empty,
at most 256 characters, and is either the reserved package rica or splits
on dots into at least two non-empty segments whose first character is
alphabetic in the Python sense (str.isalpha, which also accepts non-ASCII
Unicode letters) and whose characters are Python alphanumerics or
underscore. -/
theorem package_checker_accepted_shape (p : String) (h : _package_checker p = true) :
    p ≠ "" ∧ p.length ≤ 256 ∧
      (p = "rica" ∨
        (2 ≤ (splitDot p.toList).length ∧
          ∀ seg ∈ splitDot p.toList, seg ≠ [] ∧
            (∃ c rest, seg = c :: rest ∧ pyIsAlpha c = true) ∧
            ∀ ch ∈ seg, pyIsAlnum ch = true ∨ ch = '_')) := by
  unfold _package_checker at h
  by_cases h1 : p = ""
  · simp [h1] at h
  · by_cases h2 : p.length > 256
    · simp [h1, h2] at h
    · have hc1 : ¬((p = "" || p.length > 256) = true) := by simp [h1, h2]
      rw [if_neg hc1] at h
      refine ⟨h1, Nat.le_of_not_lt h2, ?_⟩
      by_cases h3 : p = "rica"
      · exact Or.inl h3
      · right
        rw [if_neg h3] at h
        by_cases h4 : (splitDot p.toList).length < 2
        · rw [if_pos h4] at h
          exact Bool.noConfusion h
        · rw [if_neg h4] at h
          refine ⟨Nat.le_of_not_lt h4, ?_⟩
          rw [List.all_eq_true] at h
          intro seg hseg
          have hp := h seg hseg
          cases seg with
          | nil => exact Bool.noConfusion hp
          | cons c rest =>
            have hp2 : (pyIsAlpha c &&
                (c :: rest).all fun d => pyIsAlnum d || d = '_') = true := hp
            rw [Bool.and_eq_true] at hp2
            refine ⟨List.cons_ne_nil c rest, ⟨c, rest, rfl, hp2.1⟩, ?_⟩
            intro ch hch
            have hc := (List.all_eq_true.mp hp2.2) ch hch
            rw [Bool.or_eq_true] at hc
            rcases hc with hc | hc
            · exact Or.inl hc
            · exact Or.inr (of_decide_eq_true hc)

/-- C4 counterexample: the string aa.aé is accepted by _package_checker
(CPython str.isalnum classifies the letter é as alphanumeric) although its
second segment does not match the ASCII pattern [A-Za-z][A-Za-z0-9_]*
claimed by the spec. -/
theorem package_checker_ascii_counterexample :
    _package_checker "aa.aé" = true ∧ specC4Shape "aa.aé" = false := by
  exact ⟨by decide, by decide⟩

/-- Witness for C4 at the concrete accepted package name ab.cd. -/
theorem package_checker_shape_witness :
    _package_checker "ab.cd" = true ∧
      (("ab.cd" : String) ≠ "" ∧ ("ab.cd" : String).length ≤ 256 ∧
        (("ab.cd" : String) = "rica" ∨
          (2 ≤ (splitDot ("ab.cd" : String).toList).length ∧
            ∀ seg ∈ splitDot ("ab.cd" : String).toList, seg ≠ [] ∧
              (∃ c rest, seg = c :: rest ∧ pyIsAlpha c = true) ∧
              ∀ ch ∈ seg, pyIsAlnum ch = true ∨ ch = '_'))) :=
  ⟨by decide, package_checker_accepted_shape "ab.cd" (by decide)⟩

/-- C5: installing an application whose package is already present fails
with PackageExistError and returns the registry unchanged. -/
theorem install_duplicate_package (apps : List (String × RiCA)) (app : RiCA)
    (h : (apps.lookup app.package).isSome = true) :
    install apps app =
      (apps, some (.packageExists ("Application with package " ++ apos ++ app.package ++
        apos ++ " is already installed."))) := by
  unfold install
  rw [if_pos h]

/-- Witness for C5: installing a second application named p.q into demoApps
fails and leaves the registry as it was. -/
theorem install_duplicate_witness :
    ((demoApps.lookup dupApp.package).isSome = true) ∧
      install demoApps dupApp = (demoApps, some (.packageExists
        ("Application with package " ++ apos ++ "p.q" ++ apos ++
          " is already installed."))) :=
  ⟨rfl, install_duplicate_package demoApps dupApp rfl⟩

/-- C7: for a foreground route, a handler overrunning a positive timeout
fails with ExecutionTimedOut (whether it would have returned or raised), a
handler exception inside the deadline is wrapped as
UnexpectedExecutionError with the original message, and a handler that
returns inside the deadline yields the CallBack with status success and
the measured duration. -/
theorem foreground_execution_contract (r : Route) (hbg : r.background = false) :
    (∀ v d, r.behavior = .completes v d → 0 < r.timeout ∧ r.timeout < (d : Int) →
        _execute_tool_call r = .error .executionTimedOut)
    ∧ (∀ n m d, r.behavior = .raises n m d → 0 < r.timeout ∧ r.timeout < (d : Int) →
        _execute_tool_call r = .error .executionTimedOut)
    ∧ (∀ n m d, r.behavior = .raises n m d → ¬(0 < r.timeout ∧ r.timeout < (d : Int)) →
        n ≠ "TimeoutError" → _execute_tool_call r = .error (.unexpectedExecution m))
    ∧ (∀ v d, r.behavior = .completes v d → ¬(0 < r.timeout ∧ r.timeout < (d : Int)) →
        _execute_tool_call r = .ok (.callback (foregroundCallBack r v d))
          ∧ (foregroundCallBack r v d).status = "success"
          ∧ (foregroundCallBack r v d).duration_ms = some d) := by
  refine ⟨?_, ?_, ?_, ?_⟩
  · intro v d hb ht
    simp [_execute_tool_call, hbg, hb, ht]
  · intro n m d hb ht
    simp [_execute_tool_call, hbg, hb, ht]
  · intro n m d hb ht hn
    simp [_execute_tool_call, hbg, hb, ht, hn]
  · intro v d hb ht
    refine ⟨?_, rfl, rfl⟩
    simp [_execute_tool_call, hbg, hb, ht]

/-- Witness for C7 at three concrete foreground routes: one finishing in
time, one overrunning its timeout, one raising ValueError inside the
deadline. -/
theorem foreground_execution_witness :
    (_execute_tool_call fastRoute = .ok (.callback (foregroundCallBack fastRoute (Json.str "ok") 50))
      ∧ (foregroundCallBack fastRoute (Json.str "ok") 50).status = "success"
      ∧ (foregroundCallBack fastRoute (Json.str "ok") 50).duration_ms = some 50)
    ∧ _execute_tool_call slowRoute = .error .executionTimedOut
    ∧ _execute_tool_call failingRoute = .error (.unexpectedExecution "boom") :=
  ⟨(foreground_execution_contract fastRoute rfl).2.2.2 (Json.str "ok") 50 rfl (by decide),
   (foreground_execution_contract slowRoute rfl).1 (Json.str "late") 500 rfl (by decide),
   (foreground_execution_contract failingRoute rfl).2.2.1 "ValueError" "boom" 10 rfl
     (by decide) (by decide)⟩

/-- C8 counterexample: with the calls exactly as the spec example writes
them — the write call carries no whiteboard_id, so it lands on the default
entry — a read of whiteboard w afterwards returns a content of newline
followed by B, not A newline B. -/
theorem whiteboard_write_append_counterexample :
    (Whiteboard.handle (Whiteboard.handle (Whiteboard.handle {} writeA).1 appendBtoW).1
        readW).2
      = Json.obj [("content", Json.str "\nB"), ("description", Json.str "")]
    ∧ ("\nB" : String) ≠ "A\nB" :=
  ⟨rfl, by decide⟩

/-- C8 (amended): when the write call addresses the same whiteboard id as
the append, a later read of that id returns the two contents joined by a
single newline; the stored descriptions are untouched by either call. -/
theorem whiteboard_write_then_append_same_id (s : WbState) (wid A B : String) :
    (Whiteboard.handle (Whiteboard.handle (Whiteboard.handle s
        (writeInput wid A)).1 (appendInput wid B)).1 (readInput wid)).2
      = Json.obj [("content", Json.str (A ++ "\n" ++ B)),
                  ("description", Json.str ((s.descriptions.lookup wid).getD ""))] := by
  simp [Whiteboard.handle, writeInput, appendInput, readInput, lookup_dictSet_self]

/-- C10: appending to a whiteboard id that is absent from the store creates
the entry with a leading newline before the content and reports success, so
an append on an absent entry differs from a write of the same content. -/
theorem whiteboard_append_absent_prepends_newline (s : WbState) (wid c : String)
    (h : s.content.lookup wid = none) :
    ((Whiteboard.handle s (appendInput wid c)).1.content.lookup wid = some ("\n" ++ c))
    ∧ (Whiteboard.handle s (appendInput wid c)).2
        = Json.obj [("status", Json.str "success"),
            ("message", Json.str ("Appended to whiteboard " ++ apos ++ wid ++ apos))]
    ∧ ((Whiteboard.handle s (writeInput wid c)).1.content.lookup wid = some c)
    ∧ ("\n" ++ c) ≠ c := by
  refine ⟨?_, ?_, ?_, ?_⟩
  · simp [Whiteboard.handle, appendInput, h, lookup_dictSet_self, str_empty_append]
  · simp [Whiteboard.handle, appendInput]
  · simp [Whiteboard.handle, writeInput, lookup_dictSet_self]
  · intro he
    have hlen := congrArg String.length he
    rw [String.length_append, show ("\n" : String).length = 1 from rfl] at hlen
    omega

/-- Witness for C10 on the empty store with id w and content B. -/
theorem whiteboard_append_absent_witness :
    (({} : WbState).content.lookup "w" = none)
    ∧ ((Whiteboard.handle {} (appendInput "w" "B")).1.content.lookup "w"
        = some ("\n" ++ "B"))
    ∧ (Whiteboard.handle {} (appendInput "w" "B")).2
        = Json.obj [("status", Json.str "success"),
            ("message", Json.str ("Appended to whiteboard " ++ apos ++ "w" ++ apos))]
    ∧ ((Whiteboard.handle {} (writeInput "w" "B")).1.content.lookup "w" = some "B")
    ∧ ("\n" ++ "B") ≠ ("B" : String) :=
  ⟨rfl, whiteboard_append_absent_prepends_newline {} "w" "B" rfl⟩

/-- C9: spawn with a missing task key returns the structured error payload
and registers nothing; kill with an unknown thread id returns the
structured error payload and leaves the registry unchanged. -/
theorem spawn_kill_error_paths :
    (∀ (ps : Bool) (f : Except String String) (fid : String) (se : Option String)
        (s : List (String × String)) (input : SpawnInput), input.task = none →
        ThreadManager.spawn ps f fid se s input
          = (s, Json.obj [("error",
              Json.str ("Missing " ++ apos ++ "task" ++ apos ++ " parameter"))]))
    ∧ (∀ (s : List (String × String)) (tid : String), tid ≠ "" → s.lookup tid = none →
        ThreadManager.kill s (some tid)
          = (s, Json.obj [("error",
              Json.str ("Thread " ++ apos ++ tid ++ apos ++ " not found"))])) := by
  constructor
  · intro ps f fid se s input h
    simp [ThreadManager.spawn, h]
  · intro s tid h1 h2
    simp [ThreadManager.kill, h1, h2]

/-- Witness for C9: a spawn without task on the empty registry and a kill
of the unknown id zz on a one-thread registry. -/
theorem spawn_kill_error_witness :
    (({} : SpawnInput).task = none
      ∧ ThreadManager.spawn true (.ok "sub") "tid-1" none [] {}
          = ([], Json.obj [("error",
              Json.str ("Missing " ++ apos ++ "task" ++ apos ++ " parameter"))]))
    ∧ (("zz" : String) ≠ ""
      ∧ ([("t1", "sub1")] : List (String × String)).lookup "zz" = none
      ∧ ThreadManager.kill [("t1", "sub1")] (some "zz")
          = ([("t1", "sub1")], Json.obj [("error",
              Json.str ("Thread " ++ apos ++ "zz" ++ apos ++ " not found"))])) :=
  ⟨⟨rfl, spawn_kill_error_paths.1 true (.ok "sub") "tid-1" none [] {} rfl⟩,
   ⟨by decide, rfl, spawn_kill_error_paths.2 [("t1", "sub1")] "zz" (by decide) rfl⟩⟩

/-- C6: decoding the well-formed tag with package p.q, route /r and the
body with x mapped to 1 yields exactly that triple; and any text from
which no route attribute can be extracted — neither by the strict parse
nor by the fallback regex — fails with InvalidRiCAString. -/
theorem parse_rica_tag_contract :
    parse_rica_tag exampleTag = .ok ("p.q", "/r", Json.obj [("x", Json.num 1)])
    ∧ ∀ cs : List Char, routeExtractable cs = false →
        ∃ m, parse_rica_tag cs = .error (.invalidRiCAString m) := by
  constructor
  · rfl
  · intro cs h
    unfold routeExtractable at h
    unfold parse_rica_tag
    cases hx : xmlFromstring cs with
    | some root =>
      rw [hx] at h
      have hroute : (root.attrib.lookup "route").getD "" = "" := by
        simpa using h
      refine ⟨"Missing package or route attribute", ?_⟩
      simp [finishRoot, hroute]
    | none =>
      rw [hx] at h
      have hnone : attrSearch "route=".toList cs = none := by
        cases hr : attrSearch "route=".toList cs with
        | none => rfl
        | some v => rw [hr] at h; cases h
      rw [hnone]
      cases attrSearch "package=".toList cs with
      | none => exact ⟨"Invalid XML format", rfl⟩
      | some p => exact ⟨"Invalid XML format", rfl⟩

/-- Witness for C6 on a text with no route attribute anywhere. -/
theorem parse_rica_tag_witness :
    routeExtractable "<foo></foo>".toList = false
    ∧ ∃ m, parse_rica_tag "<foo></foo>".toList = .error (.invalidRiCAString m) :=
  ⟨by decide, parse_rica_tag_contract.2 "<foo></foo>".toList (by decide)⟩

/-- C1 (amended): a tag whose following stripped text begins with an
opening brace or an opening bracket — in particular a tag whose merged
result was a JSON object or array, or a [tool-error] fragment — is not a
candidate, so a re-run of the scan does not dispatch it again. -/
theorem processed_json_tail_not_candidate (ctx : List Char) (m : Nat × Nat)
    (hjson : ∃ c rest, tailAfter ctx m = c :: rest ∧ (c = '{' ∨ c = '[')) :
    m ∉ candidateMatches ctx := by
  intro hmem
  rw [candidateMatches, List.mem_filter] at hmem
  obtain ⟨c, rest, htail, hc⟩ := hjson
  have hcand := hmem.2
  rw [isNewCandidate, htail] at hcand
  rcases hc with h | h <;> subst h <;> simp at hcand

/-- Witness for the amended C1 on a buffer whose tag is followed by a
merged JSON object result. -/
theorem processed_json_tail_witness :
    (∃ c rest, tailAfter tagBufJson (0, 38) = c :: rest ∧ (c = '{' ∨ c = '['))
    ∧ (0, 38) ∉ candidateMatches tagBufJson :=
  ⟨⟨'{', "\"a\": 1\x7d".toList, rfl, Or.inl rfl⟩,
   processed_json_tail_not_candidate tagBufJson (0, 38)
     ⟨'{', "\"a\": 1\x7d".toList, rfl, Or.inl rfl⟩⟩

/-- C1 counterexample: the tag for p.q /r is dispatched by a first scan,
its scalar result hello is merged, and a second scan over the grown buffer
selects the very same tag as a candidate again and re-executes its
handler, appending hello a second time.  The code keeps no cursor; only a
merged result starting with a brace or bracket suppresses re-execution. -/
theorem tag_redispatched_counterexample :
    candidateMatches tagBuf = [(0, 38)]
    ∧ _detect_and_execute_tool_tail demoApps tagBuf [0]
        = (true, some "hello", tagBufMerged)
    ∧ candidateMatches tagBufMerged = [(0, 38)]
    ∧ _detect_and_execute_tool_tail demoApps tagBufMerged [0]
        = (true, some "hello", tagBufMerged ++ "hello".toList) :=
  ⟨rfl, rfl, rfl, rfl⟩

/-- C2: within one scan, for every completion schedule of the concurrently
dispatched candidates, the scan result equals the one for in-order
completion, and the results are appended to the buffer in the original
left-to-right order of their tags. -/
theorem scan_merges_in_tag_order (apps : List (String × RiCA)) (ctx : List Char)
    (order : List Nat)
    (hperm : order.Perm (List.range (candidateMatches ctx).length)) :
    _detect_and_execute_tool_tail apps ctx order
      = _detect_and_execute_tool_tail apps ctx (List.range (candidateMatches ctx).length)
    ∧ (candidateMatches ctx ≠ [] →
        (_detect_and_execute_tool_tail apps ctx order).2.2
          = ctx ++ (joinAll (scanResults apps ctx)).toList) := by
  constructor
  · unfold _detect_and_execute_tool_tail
    rw [gather_scan_eq apps ctx order hperm,
      gather_scan_eq apps ctx (List.range (candidateMatches ctx).length) (List.Perm.refl _)]
  · intro hne
    exact detect_merge_eq apps ctx order hperm hne

/-- Witness for C2: two tags, the second handler finishing first (schedule
[1, 0]), still merged in tag order. -/
theorem scan_merges_witness :
    ([1, 0] : List Nat).Perm (List.range (candidateMatches twoTagBuf).length)
    ∧ (_detect_and_execute_tool_tail demoApps twoTagBuf [1, 0]).2.2
        = twoTagBuf ++ (joinAll (scanResults demoApps twoTagBuf)).toList :=
  ⟨by decide,
   (scan_merges_in_tag_order demoApps twoTagBuf [1, 0] (by decide)).2 (by decide)⟩

/-- C3: with any completion schedule, a candidate whose parse or dispatch
fails contributes exactly the inline [tool-error] fragment in its own
slot, every candidate whose execution succeeds contributes its own result
in its slot, and the scan still merges all slots into the buffer — the
per-candidate results are total, so no exception reaches the caller. -/
theorem scan_isolates_candidate_failures (apps : List (String × RiCA)) (ctx : List Char)
    (order : List Nat) (i : Nat) (e : RicaError)
    (hperm : order.Perm (List.range (candidateMatches ctx).length))
    (hi : i < (candidateMatches ctx).length)
    (he : _parse_and_execute_core apps
        (tagTextAt ctx ((candidateMatches ctx).getD i (0, 0))) = .error e) :
    ((gatherBySchedule (scanResults apps ctx) order).getD i ""
        = "[tool-error]" ++ e.pyName ++ ": " ++ e.pyMsg)
    ∧ (∀ j s, j < (candidateMatches ctx).length →
        _parse_and_execute_core apps
            (tagTextAt ctx ((candidateMatches ctx).getD j (0, 0))) = .ok s →
        (gatherBySchedule (scanResults apps ctx) order).getD j "" = s)
    ∧ (_detect_and_execute_tool_tail apps ctx order).2.2
        = ctx ++ (joinAll (scanResults apps ctx)).toList := by
  refine ⟨?_, ?_, ?_⟩
  · rw [gather_scan_eq apps ctx order hperm]
    unfold scanResults
    rw [getD_map_lt _ _ i hi]
    unfold _parse_and_execute
    rw [he]
  · intro j s hj hok
    rw [gather_scan_eq apps ctx order hperm]
    unfold scanResults
    rw [getD_map_lt _ _ j hj]
    unfold _parse_and_execute
    rw [hok]
  · have hne : candidateMatches ctx ≠ [] := by
      intro h0
      rw [h0] at hi
      exact Nat.not_lt_zero i hi
    exact detect_merge_eq apps ctx order hperm hne

/-- Witness for C3: the first candidate of mixedTagBuf names an uninstalled
package, fails with PackageNotFoundError, and its slot carries the inline
error fragment under the schedule [1, 0]. -/
theorem scan_isolates_witness :
    _parse_and_execute_core demoApps
        (tagTextAt mixedTagBuf ((candidateMatches mixedTagBuf).getD 0 (0, 0)))
        = .error eCex
    ∧ ((gatherBySchedule (scanResults demoApps mixedTagBuf) [1, 0]).getD 0 ""
        = "[tool-error]" ++ eCex.pyName ++ ": " ++ eCex.pyMsg) :=
  ⟨rfl,
   (scan_isolates_candidate_failures demoApps mixedTagBuf [1, 0] 0 eCex
     (by decide) (by decide) rfl).1⟩

end RicaSpec
